import Mathlib

/-!
Shallow embedding of the UI logic of the expense-management repository
fragment: the NetSuite `TransactionFieldIDStep` form validation, the
`DragAndDropConsumer` component, the `QuickbooksExportConfigurationPage`
menu items, and the `AttachmentModal` state machine (`submitAndClose`,
`closeConfirmModal`, `threeDotsMenuItems`, `getModalType`,
`validateAndDisplayFileToUpload`).

External library helpers that the snippet imports but does not define
(`ValidationUtils.isRequiredFulfilled`, `Str.isPDF`,
`FileUtils.cleanFileName`, `URL.createObjectURL`, `translate`,
`ReportUtils.canEditFieldOfMoneyRequest`, `TransactionUtils.*`) are taken
as function parameters, so every theorem quantifies over their behaviour.
JavaScript string truthiness (empty string is falsy) is modelled
explicitly; `undefined` is modelled by `Option`.
-/

/-- A custom list entry of the policy's NetSuite
`syncOptions.customLists`; only `transactionFieldID` is read by the
validation. -/
structure NetSuiteCustomList where
  transactionFieldID : String
deriving DecidableEq

/-- The two possible error messages the `validate` callback of
`TransactionFieldIDStep` can put under `INPUT_IDS.TRANSACTION_FIELD_ID`. -/
inductive TransactionFieldIDError
  | requiredFieldError
  | uniqueTransactionFieldIdError
deriving DecidableEq

/-- The `validate` callback of `TransactionFieldIDStep`
(TransactionFieldIDStep.tsx lines 32-49): required-field check first,
then a case-insensitive uniqueness check against the policy's existing
custom lists.  The returned `Option` is the entry of the `errors` object
at key `TRANSACTION_FIELD_ID` (`none` means the empty errors object).
`isRequiredFulfilled` stands for `ValidationUtils.isRequiredFulfilled`;
`customLists` is `policy?.connections?.netsuite?.options?.config?.syncOptions?.customLists`
(optional chaining gives `none` when any link is missing, and `.find` on
a missing list finds nothing). -/
def transactionFieldIDValidate (isRequiredFulfilled : String → Bool)
    (customLists : Option (List NetSuiteCustomList)) (value : String) :
    Option TransactionFieldIDError :=
  if !(isRequiredFulfilled value) then
    some TransactionFieldIDError.requiredFieldError
  else if ((customLists.getD []).find?
      (fun customList => customList.transactionFieldID.toLower == value.toLower)).isSome then
    some TransactionFieldIDError.uniqueTransactionFieldIdError
  else
    none

/-- What a React component's return value can be, for the components
modelled here: `nothing` is `null`, `portal` is
`<Portal hostName={hostName}>{children}</Portal>`. -/
inductive RenderOutput (α : Type)
  | nothing
  | portal (hostName : String) (children : α)
deriving DecidableEq

/-- The value provided by a drag-and-drop context:
the snippet destructures `{isDraggingOver}` from it. -/
structure DragAndDropContextValue where
  isDraggingOver : Bool
deriving DecidableEq

/-- The render path of `DragAndDropConsumer`
(components/DragAndDrop/Consumer/index.js lines 6-30): read
`isDraggingOver` from the context obtained for `dropZoneID`; render
`null` when not dragging over, otherwise the children inside a `Portal`
with host `dropZoneHostName`.  `getDragAndDropContext` stands for
`DNDUtils.getDragAndDropContext` combined with `useContext`. -/
def dragAndDropConsumerRender {α : Type}
    (getDragAndDropContext : String → DragAndDropContextValue)
    (dropZoneID dropZoneHostName : String) (children : α) : RenderOutput α :=
  let isDraggingOver := (getDragAndDropContext dropZoneID).isDraggingOver
  if !isDraggingOver then
    RenderOutput.nothing
  else
    RenderOutput.portal dropZoneHostName children

/-- The two modal types the attachment modal uses
(`CONST.MODAL.MODAL_TYPE.CENTERED_UNSWIPEABLE` and `...CENTERED`). -/
inductive ModalType
  | centeredUnswipeable
  | centered
deriving DecidableEq

/-- JavaScript `a || b` on strings: `a` when `a` is truthy (non-empty),
otherwise `b`. -/
def jsOrStr (a b : String) : String :=
  if a = "" then b else a

/-- `getModalType` of the attachment modal (part_000 lines 205-212):
`sourceURL && (Str.isPDF(sourceURL) || (_file && Str.isPDF(_file.name ||
translate('attachmentView.unknownFilename'))))` selects the unswipeable
centered type, otherwise the plain centered type.  `isPDF` stands for
`Str.isPDF`, `unknownFilename` for the translated placeholder, `file`
carries the file's `name` (`none` models a missing `_file`). -/
def getModalType (isPDF : String → Bool) (unknownFilename : String)
    (sourceURL : String) (file : Option String) : ModalType :=
  if (sourceURL != "") &&
      (isPDF sourceURL || (file.isSome && isPDF (jsOrStr (file.getD "") unknownFilename))) then
    ModalType.centeredUnswipeable
  else
    ModalType.centered

/-- The shape of an `ImagePickerResponse` (part_000 lines 70-77). -/
structure ImagePickerResponse where
  height : Nat
  name : String
  size : Nat
  type : String
  uri : String
  width : Nat
deriving DecidableEq

/-- A web `File` as the attachment modal reads it: `name`, `size`
(read with `?? 0` in the snippet, hence `Option`), and MIME `type`. -/
structure FileData where
  name : String
  size : Option Nat
  type : String
deriving DecidableEq

/-- What the modal's `file` state can hold: a full `File`, an
`ImagePickerResponse`, or the `{name: originalFileName}` object built
from the `originalFileName` prop. -/
inductive StoredFile
  | fileObject (f : FileData)
  | imageObject (r : ImagePickerResponse)
  | nameOnly (name : String)
deriving DecidableEq

/-- The `useState` pieces of `AttachmentModal` that its visible
behaviour reads and writes (part_000 lines 155-177).  The animation
value `confirmButtonFadeAnimation` is omitted. -/
structure AttachmentModalState where
  isModalOpen : Bool
  shouldLoadAttachment : Bool
  isAttachmentInvalid : Bool
  isDeleteReceiptConfirmModalVisible : Bool
  isAuthTokenRequiredState : Bool
  attachmentInvalidReasonTitle : String
  attachmentInvalidReason : Option String
  sourceState : String
  modalType : ModalType
  isConfirmButtonDisabled : Bool
  isDownloadButtonReadyToBeShown : Bool
  file : Option StoredFile
deriving DecidableEq

/-- The value `lodashExtend(file, {source: sourceState})` passed to
`onConfirm`: the current `file` together with the current source. -/
structure ExtendedFile where
  file : Option StoredFile
  source : String
deriving DecidableEq

/-- `submitAndClose` (part_000 lines 243-255).  Returns the new state
together with the list of arguments `onConfirm` was invoked with
(`onConfirmProvided` tells whether an `onConfirm` callback prop was
passed).  Bails out when the modal is closed or the confirm button is
disabled; otherwise calls `onConfirm` (when provided) and closes the
modal. -/
def submitAndClose (onConfirmProvided : Bool) (s : AttachmentModalState) :
    AttachmentModalState × List ExtendedFile :=
  if !s.isModalOpen || s.isConfirmButtonDisabled then
    (s, [])
  else
    ({ s with isModalOpen := false },
     if onConfirmProvided then [{ file := s.file, source := s.sourceState }] else [])

/-- `closeConfirmModal` (part_000 lines 260-263): resets both
`isAttachmentInvalid` and `isDeleteReceiptConfirmModalVisible`. -/
def closeConfirmModal (s : AttachmentModalState) : AttachmentModalState :=
  { s with isAttachmentInvalid := false, isDeleteReceiptConfirmModalVisible := false }

/-- `closeModal` (part_000 lines 380-382). -/
def closeModal (s : AttachmentModalState) : AttachmentModalState :=
  { s with isModalOpen := false }

/-- `openModal` (part_000 lines 387-389). -/
def openModal (s : AttachmentModalState) : AttachmentModalState :=
  { s with isModalOpen := true }

/-- `isOverlayModalVisible` (part_000 line 169):
`(isReceiptAttachment && isDeleteReceiptConfirmModalVisible) ||
(!isReceiptAttachment && isAttachmentInvalid)`. -/
def isOverlayModalVisible (isReceiptAttachment : Bool) (s : AttachmentModalState) : Bool :=
  (isReceiptAttachment && s.isDeleteReceiptConfirmModalVisible) ||
    (!isReceiptAttachment && s.isAttachmentInvalid)

/-- The `onClose` handler wired to the main `Modal` (part_000 line 453):
`isOverlayModalVisible ? closeConfirmModal : closeModal`. -/
def modalOnClose (isReceiptAttachment : Bool) (s : AttachmentModalState) : AttachmentModalState :=
  if isOverlayModalVisible isReceiptAttachment s then closeConfirmModal s else closeModal s

/-- The parts of `AttachmentModal`'s JSX tree (part_000 lines 448-559)
that the claims are about.  `...Rendered` means the element appears in
the tree at all; `...Visible` means it is rendered with
`isVisible={true}`. -/
structure AttachmentModalRender where
  modalVisible : Bool
  showsConfirmButton : Bool
  confirmButtonDisabled : Bool
  deleteReceiptConfirmModalRendered : Bool
  deleteReceiptConfirmModalVisible : Bool
  invalidAttachmentConfirmModalRendered : Bool
  invalidAttachmentConfirmModalVisible : Bool
deriving DecidableEq

/-- Reification of `AttachmentModal`'s return JSX: the main `Modal` has
`isVisible={isModalOpen}`; the Send `Button` appears under
`Boolean(onConfirm) && ...`; the delete-receipt `ConfirmModal` appears
under `isReceiptAttachment && ...` with
`isVisible={isDeleteReceiptConfirmModalVisible}`; the invalid-attachment
`ConfirmModal` appears under `!isReceiptAttachment && ...` with
`isVisible={isAttachmentInvalid}`. -/
def renderAttachmentModal (isReceiptAttachment onConfirmProvided : Bool)
    (s : AttachmentModalState) : AttachmentModalRender :=
  { modalVisible := s.isModalOpen
    showsConfirmButton := onConfirmProvided
    confirmButtonDisabled := s.isConfirmButtonDisabled
    deleteReceiptConfirmModalRendered := isReceiptAttachment
    deleteReceiptConfirmModalVisible := isReceiptAttachment && s.isDeleteReceiptConfirmModalVisible
    invalidAttachmentConfirmModalRendered := !isReceiptAttachment
    invalidAttachmentConfirmModalVisible := !isReceiptAttachment && s.isAttachmentInvalid }

/-- A concrete modal state used by the closed witness theorems. -/
def sampleModalState : AttachmentModalState where
  isModalOpen := true
  shouldLoadAttachment := true
  isAttachmentInvalid := true
  isDeleteReceiptConfirmModalVisible := true
  isAuthTokenRequiredState := false
  attachmentInvalidReasonTitle := ""
  attachmentInvalidReason := none
  sourceState := "blob:receipt"
  modalType := ModalType.centered
  isConfirmButtonDisabled := false
  isDownloadButtonReadyToBeShown := true
  file := some (StoredFile.nameOnly "receipt.png")

/-- C1: for every form value, the `TransactionFieldIDStep` validation
returns the required-field error exactly when `isRequiredFulfilled`
rejects the value; the uniqueness error exactly when the value is
fulfilled but some existing custom list has a case-insensitively equal
`transactionFieldID`; and the empty errors object exactly when the value
is fulfilled and no custom list matches. -/
theorem transactionFieldIDValidate_cases
    (isRequiredFulfilled : String → Bool)
    (customLists : Option (List NetSuiteCustomList)) (value : String) :
    (transactionFieldIDValidate isRequiredFulfilled customLists value =
        some TransactionFieldIDError.requiredFieldError ↔
      isRequiredFulfilled value = false)
    ∧ (transactionFieldIDValidate isRequiredFulfilled customLists value =
        some TransactionFieldIDError.uniqueTransactionFieldIdError ↔
      isRequiredFulfilled value = true ∧
        ∃ customList ∈ customLists.getD [],
          customList.transactionFieldID.toLower = value.toLower)
    ∧ (transactionFieldIDValidate isRequiredFulfilled customLists value = none ↔
      isRequiredFulfilled value = true ∧
        ∀ customList ∈ customLists.getD [],
          customList.transactionFieldID.toLower ≠ value.toLower) := by
  have hfind : ((customLists.getD []).find?
      (fun customList => customList.transactionFieldID.toLower == value.toLower)).isSome = true ↔
      ∃ customList ∈ customLists.getD [],
        customList.transactionFieldID.toLower = value.toLower := by
    rw [List.find?_isSome]
    simp
  unfold transactionFieldIDValidate
  cases h : isRequiredFulfilled value with
  | false =>
    simp [h]
  | true =>
    by_cases hex : ∃ customList ∈ customLists.getD [],
        customList.transactionFieldID.toLower = value.toLower
    · have hf : ((customLists.getD []).find?
          (fun customList => customList.transactionFieldID.toLower == value.toLower)).isSome
            = true := hfind.mpr hex
      refine ⟨by simp [h, hf], by simp [h, hf, hex], ?_⟩
      obtain ⟨c, hc, hceq⟩ := hex
      simp [h, hf]
      exact ⟨c, hc, hceq⟩
    · have hf : ((customLists.getD []).find?
          (fun customList => customList.transactionFieldID.toLower == value.toLower)).isSome
            = false := by
        rw [Bool.eq_false_iff]
        exact fun hc => hex (hfind.mp hc)
      refine ⟨by simp [h, hf], by simp [h, hf, hex], ?_⟩
      simp [h, hf]
      exact fun c hc hceq => hex ⟨c, hc, hceq⟩

/-- C2: a `DragAndDropConsumer` render returns `null` when
`isDraggingOver` (from the context for its `dropZoneID`) is false, and
renders exactly its children in a `Portal` with host `dropZoneHostName`
when it is true. -/
theorem dragAndDropConsumerRender_cases
    (getDragAndDropContext : String → DragAndDropContextValue)
    (dropZoneID dropZoneHostName : String) (children : String) :
    ((getDragAndDropContext dropZoneID).isDraggingOver = false →
      dragAndDropConsumerRender getDragAndDropContext dropZoneID dropZoneHostName children =
        RenderOutput.nothing)
    ∧ ((getDragAndDropContext dropZoneID).isDraggingOver = true →
      dragAndDropConsumerRender getDragAndDropContext dropZoneID dropZoneHostName children =
        RenderOutput.portal dropZoneHostName children) := by
  unfold dragAndDropConsumerRender
  constructor
  · intro h; simp [h]
  · intro h; simp [h]

/-- Witness for C2 at a concrete context, zone, host and children. -/
theorem dragAndDropConsumerRender_cases_witness :
    dragAndDropConsumerRender (fun _ => ⟨false⟩) "zone" "host" "kids" =
        RenderOutput.nothing
    ∧ dragAndDropConsumerRender (fun _ => ⟨true⟩) "zone" "host" "kids" =
        RenderOutput.portal "host" "kids" :=
  ⟨(dragAndDropConsumerRender_cases (fun _ => ⟨false⟩) "zone" "host" "kids").1 rfl,
   (dragAndDropConsumerRender_cases (fun _ => ⟨true⟩) "zone" "host" "kids").2 rfl⟩

/-- C6: `getModalType` returns the unswipeable centered type exactly when
the source URL is non-empty and either the URL is a PDF or the file's
name (the translated unknown-filename placeholder when the name is
empty) is a PDF; in every other case it returns the plain centered
type. -/
theorem getModalType_cases (isPDF : String → Bool)
    (unknownFilename sourceURL fileName : String) :
    (getModalType isPDF unknownFilename sourceURL (some fileName) =
        ModalType.centeredUnswipeable ↔
      sourceURL ≠ "" ∧ (isPDF sourceURL = true ∨
        isPDF (if fileName = "" then unknownFilename else fileName) = true))
    ∧ (getModalType isPDF unknownFilename sourceURL (some fileName) =
        ModalType.centered ↔
      ¬(sourceURL ≠ "" ∧ (isPDF sourceURL = true ∨
        isPDF (if fileName = "" then unknownFilename else fileName) = true))) := by
  unfold getModalType jsOrStr
  by_cases hs : sourceURL = "" <;>
    by_cases hn : fileName = "" <;>
      cases hp : isPDF sourceURL <;>
        simp [hs, hn, hp]

/-- C3: the Send confirm button is rendered iff an `onConfirm` callback
is provided; and when the modal is open and the confirm button enabled,
`submitAndClose` with a provided `onConfirm` invokes it exactly once,
with the current file extended with the current source, and closes the
modal. -/
theorem attachmentModal_confirm_spec (isReceiptAttachment onConfirmProvided : Bool)
    (s : AttachmentModalState) :
    ((renderAttachmentModal isReceiptAttachment onConfirmProvided s).showsConfirmButton = true ↔
      onConfirmProvided = true)
    ∧ (s.isModalOpen = true → s.isConfirmButtonDisabled = false →
      (submitAndClose true s).2 = [{ file := s.file, source := s.sourceState }]
      ∧ (submitAndClose true s).1.isModalOpen = false) := by
  refine ⟨by simp [renderAttachmentModal], ?_⟩
  intro hOpen hDis
  simp [submitAndClose, hOpen, hDis]

/-- Witness for C3 at a concrete open state with the button enabled. -/
theorem attachmentModal_confirm_spec_witness :
    sampleModalState.isModalOpen = true
    ∧ sampleModalState.isConfirmButtonDisabled = false
    ∧ (submitAndClose true sampleModalState).2 =
        [{ file := sampleModalState.file, source := sampleModalState.sourceState }]
    ∧ (submitAndClose true sampleModalState).1.isModalOpen = false :=
  ⟨rfl, rfl,
    ((attachmentModal_confirm_spec false true sampleModalState).2 rfl rfl).1,
    ((attachmentModal_confirm_spec false true sampleModalState).2 rfl rfl).2⟩

/-- C5: the delete-receipt confirm modal is rendered only when
`isReceiptAttachment`, the invalid-attachment confirm modal only when
not `isReceiptAttachment`, so at most one overlay confirm modal is ever
visible; and when one is visible the main modal's `onClose` is
`closeConfirmModal`, which resets both `isAttachmentInvalid` and
`isDeleteReceiptConfirmModalVisible` and leaves `isModalOpen`
untouched. -/
theorem attachmentModal_overlay_invariant (isReceiptAttachment onConfirmProvided : Bool)
    (s : AttachmentModalState) :
    ((renderAttachmentModal isReceiptAttachment onConfirmProvided s).deleteReceiptConfirmModalRendered
        = true → isReceiptAttachment = true)
    ∧ ((renderAttachmentModal isReceiptAttachment onConfirmProvided s).invalidAttachmentConfirmModalRendered
        = true → isReceiptAttachment = false)
    ∧ ¬((renderAttachmentModal isReceiptAttachment onConfirmProvided s).deleteReceiptConfirmModalVisible
          = true
        ∧ (renderAttachmentModal isReceiptAttachment onConfirmProvided s).invalidAttachmentConfirmModalVisible
          = true)
    ∧ (isOverlayModalVisible isReceiptAttachment s = true →
      modalOnClose isReceiptAttachment s = closeConfirmModal s
      ∧ (modalOnClose isReceiptAttachment s).isAttachmentInvalid = false
      ∧ (modalOnClose isReceiptAttachment s).isDeleteReceiptConfirmModalVisible = false
      ∧ (modalOnClose isReceiptAttachment s).isModalOpen = s.isModalOpen) := by
  refine ⟨?_, ?_, ?_, ?_⟩
  · cases isReceiptAttachment <;> simp [renderAttachmentModal]
  · cases isReceiptAttachment <;> simp [renderAttachmentModal]
  · cases isReceiptAttachment <;> simp [renderAttachmentModal]
  · intro hOverlay
    have hClose : modalOnClose isReceiptAttachment s = closeConfirmModal s := by
      simp [modalOnClose, hOverlay]
    refine ⟨hClose, ?_, ?_, ?_⟩ <;> rw [hClose] <;> simp [closeConfirmModal]

/-- Witness for C5 at a receipt attachment whose delete-confirm overlay
is visible. -/
theorem attachmentModal_overlay_invariant_witness :
    isOverlayModalVisible true sampleModalState = true
    ∧ modalOnClose true sampleModalState = closeConfirmModal sampleModalState
    ∧ (modalOnClose true sampleModalState).isAttachmentInvalid = false
    ∧ (modalOnClose true sampleModalState).isDeleteReceiptConfirmModalVisible = false
    ∧ (modalOnClose true sampleModalState).isModalOpen = sampleModalState.isModalOpen :=
  ⟨rfl,
    ((attachmentModal_overlay_invariant true true sampleModalState).2.2.2 rfl).1,
    ((attachmentModal_overlay_invariant true true sampleModalState).2.2.2 rfl).2.1,
    ((attachmentModal_overlay_invariant true true sampleModalState).2.2.2 rfl).2.2.1,
    ((attachmentModal_overlay_invariant true true sampleModalState).2.2.2 rfl).2.2.2⟩

/-- C9: when the modal is not open or the confirm button is disabled,
`submitAndClose` is a no-op: no `onConfirm` call and the whole state,
`isModalOpen` included, is returned unchanged. -/
theorem submitAndClose_noop (onConfirmProvided : Bool) (s : AttachmentModalState) :
    (s.isModalOpen = false ∨ s.isConfirmButtonDisabled = true) →
    submitAndClose onConfirmProvided s = (s, []) := by
  intro h
  rcases h with h | h <;> simp [submitAndClose, h]

/-- Witness for C9 at a concrete closed state. -/
theorem submitAndClose_noop_witness :
    ({ sampleModalState with isModalOpen := false } : AttachmentModalState).isModalOpen = false
    ∧ submitAndClose true { sampleModalState with isModalOpen := false } =
        ({ sampleModalState with isModalOpen := false }, []) :=
  ⟨rfl, submitAndClose_noop true { sampleModalState with isModalOpen := false } (Or.inl rfl)⟩

/-- The three-dots menu entries the attachment modal can build
(part_000 lines 411-434), identified by their icon/translation key. -/
inductive ThreeDotsMenuItem
  | replace
  | download
  | deleteReceipt
deriving DecidableEq

/-- `threeDotsMenuItems` of `AttachmentModal` (part_000 lines 401-437).
Guard clause first (`!isReceiptAttachment || !parentReport ||
!parentReportActions` gives `[]`); then `canEdit` is
`ReportUtils.canEditFieldOfMoneyRequest(parentReportAction,
parentReport.reportID, RECEIPT, transaction) &&
!TransactionUtils.isDistanceRequest(transaction)`; Replace is pushed when
`canEdit`, Download always, Delete receipt when
`hasReceipt && !isReceiptBeingScanned && canEdit`.
The report-action and transaction types `RA` and `T` are abstract, and
the four `ReportUtils`/`TransactionUtils` helpers are parameters;
`parentReportID` is `some` of `parentReport.reportID` when the parent
report is present; `parentReportActions` is an association list keyed by
action ID; `parentReportActionID` is `report?.parentReportActionID ?? ''`. -/
def threeDotsMenuItems {RA T : Type}
    (canEditFieldOfMoneyRequest : Option RA → String → Option T → Bool)
    (isDistanceRequest hasReceipt isReceiptBeingScanned : Option T → Bool)
    (isReceiptAttachment : Bool)
    (parentReportID : Option String)
    (parentReportActions : Option (List (String × RA)))
    (parentReportActionID : String)
    (transaction : Option T) : List ThreeDotsMenuItem :=
  if !isReceiptAttachment || parentReportID.isNone || parentReportActions.isNone then
    []
  else
    let parentReportAction := (parentReportActions.getD []).lookup parentReportActionID
    let canEdit := canEditFieldOfMoneyRequest parentReportAction (parentReportID.getD "") transaction
        && !(isDistanceRequest transaction)
    (if canEdit then [ThreeDotsMenuItem.replace] else [])
      ++ [ThreeDotsMenuItem.download]
      ++ (if hasReceipt transaction && !(isReceiptBeingScanned transaction) && canEdit then
            [ThreeDotsMenuItem.deleteReceipt]
          else [])

/-- C4: the three-dots menu is empty unless the attachment is a receipt
and both parent report and parent report actions are present; when
non-empty it contains Download; it contains Replace exactly when the
receipt field is editable (`canEditFieldOfMoneyRequest` holds and the
transaction is not a distance request); and it contains Delete receipt
exactly when, in addition, the transaction has a receipt that is not
being scanned. -/
theorem threeDotsMenuItems_spec {RA T : Type}
    (canEditFieldOfMoneyRequest : Option RA → String → Option T → Bool)
    (isDistanceRequest hasReceipt isReceiptBeingScanned : Option T → Bool)
    (isReceiptAttachment : Bool)
    (parentReportID : Option String)
    (parentReportActions : Option (List (String × RA)))
    (parentReportActionID : String)
    (transaction : Option T) :
    (threeDotsMenuItems canEditFieldOfMoneyRequest isDistanceRequest hasReceipt
          isReceiptBeingScanned isReceiptAttachment parentReportID parentReportActions
          parentReportActionID transaction = [] ↔
      (isReceiptAttachment = false ∨ parentReportID = none ∨ parentReportActions = none))
    ∧ (threeDotsMenuItems canEditFieldOfMoneyRequest isDistanceRequest hasReceipt
          isReceiptBeingScanned isReceiptAttachment parentReportID parentReportActions
          parentReportActionID transaction ≠ [] →
      ThreeDotsMenuItem.download ∈ threeDotsMenuItems canEditFieldOfMoneyRequest
          isDistanceRequest hasReceipt isReceiptBeingScanned isReceiptAttachment
          parentReportID parentReportActions parentReportActionID transaction)
    ∧ (ThreeDotsMenuItem.replace ∈ threeDotsMenuItems canEditFieldOfMoneyRequest
          isDistanceRequest hasReceipt isReceiptBeingScanned isReceiptAttachment
          parentReportID parentReportActions parentReportActionID transaction ↔
      (isReceiptAttachment = true ∧ parentReportID.isSome = true ∧
        parentReportActions.isSome = true ∧
        (canEditFieldOfMoneyRequest ((parentReportActions.getD []).lookup parentReportActionID)
            (parentReportID.getD "") transaction && !(isDistanceRequest transaction)) = true))
    ∧ (ThreeDotsMenuItem.deleteReceipt ∈ threeDotsMenuItems canEditFieldOfMoneyRequest
          isDistanceRequest hasReceipt isReceiptBeingScanned isReceiptAttachment
          parentReportID parentReportActions parentReportActionID transaction ↔
      (isReceiptAttachment = true ∧ parentReportID.isSome = true ∧
        parentReportActions.isSome = true ∧
        (canEditFieldOfMoneyRequest ((parentReportActions.getD []).lookup parentReportActionID)
            (parentReportID.getD "") transaction && !(isDistanceRequest transaction)) = true ∧
        hasReceipt transaction = true ∧ isReceiptBeingScanned transaction = false)) := by
  cases isReceiptAttachment <;>
    cases parentReportID <;>
      cases parentReportActions <;>
        simp [threeDotsMenuItems] <;>
          tauto

/-- Witness for C4: a concrete receipt attachment with parent report and
actions present has a non-empty menu containing Download. -/
theorem threeDotsMenuItems_spec_witness :
    @threeDotsMenuItems Unit Unit (fun _ _ _ => true) (fun _ => false) (fun _ => true)
        (fun _ => false) true (some "r1") (some []) "a1" none ≠ []
    ∧ ThreeDotsMenuItem.download ∈ @threeDotsMenuItems Unit Unit (fun _ _ _ => true)
        (fun _ => false) (fun _ => true) (fun _ => false) true (some "r1") (some []) "a1" none :=
  ⟨by decide,
    (threeDotsMenuItems_spec (fun _ _ _ => true) (fun _ => false) (fun _ => true)
        (fun _ => false) true (some "r1") (some []) "a1" none).2.1 (by decide)⟩

/-- The brick-road indicator values a menu item can carry
(`CONST.BRICK_ROAD_INDICATOR_STATUS.ERROR` or `undefined`). -/
inductive BrickRoadIndicator
  | error
deriving DecidableEq

/-- The fields of a `QuickbooksExportConfigurationPage` menu item that
the claims read. -/
structure QBOMenuItem where
  description : String
  brickRoadIndicator : Option BrickRoadIndicator
  title : Option String
deriving DecidableEq

/-- The `errors` object of the QuickBooks Online connection config, as
read by the page (`errors?.exporter`, `errors?.exportDate`,
`errors?.exportExpenses`, `errors?.exportInvoice`,
`errors?.exportCompanyCard`). -/
structure QBOConfigErrors where
  exporter : Option String
  exportDate : Option String
  exportExpenses : Option String
  exportInvoice : Option String
  exportCompanyCard : Option String
deriving DecidableEq

/-- The destructured part of
`policy?.connections?.quickbooksOnline?.config ?? {}`. -/
structure QuickbooksOnlineConfig where
  exporter : Option String
  exportDate : Option String
  exportEntity : Option String
  exportInvoice : Option String
  exportCompanyCard : Option String
  errors : Option QBOConfigErrors
deriving DecidableEq

/-- JavaScript truthiness of a possibly-`undefined` string:
`undefined` and `''` are falsy. -/
def jsTruthyStr : Option String → Bool
  | none => false
  | some s => s != ""

/-- The `menuItems` array of `QuickbooksExportConfigurationPage`
(second file of TransactionFieldIDStep.tsx, lines 103-139).  `translate`
stands for the localization function, `policyOwner` for
`policy?.owner ?? ''`.  Each `brickRoadIndicator` is
`errors?.<field> ? ERROR : undefined`; titles follow the source:
`exporter ?? policyOwner`, the two translated conditional titles, the two
raw config strings, and the static credit-card row. -/
def quickbooksExportMenuItems (translate : String → String) (policyOwner : String)
    (config : QuickbooksOnlineConfig) : List QBOMenuItem :=
  [ { description := translate "workspace.qbo.preferredExporter"
      brickRoadIndicator :=
        if jsTruthyStr (config.errors.bind QBOConfigErrors.exporter) then
          some BrickRoadIndicator.error
        else none
      title := some (config.exporter.getD policyOwner) },
    { description := translate "workspace.qbo.date"
      brickRoadIndicator :=
        if jsTruthyStr (config.errors.bind QBOConfigErrors.exportDate) then
          some BrickRoadIndicator.error
        else none
      title :=
        if jsTruthyStr config.exportDate then
          some (translate ("workspace.qbo." ++ config.exportDate.getD "" ++ ".label"))
        else none },
    { description := translate "workspace.qbo.exportExpenses"
      brickRoadIndicator :=
        if jsTruthyStr (config.errors.bind QBOConfigErrors.exportExpenses) then
          some BrickRoadIndicator.error
        else none
      title :=
        if jsTruthyStr config.exportEntity then
          some (translate ("workspace.qbo." ++ config.exportEntity.getD ""))
        else none },
    { description := translate "workspace.qbo.exportInvoices"
      brickRoadIndicator :=
        if jsTruthyStr (config.errors.bind QBOConfigErrors.exportInvoice) then
          some BrickRoadIndicator.error
        else none
      title := config.exportInvoice },
    { description := translate "workspace.qbo.exportCompany"
      brickRoadIndicator :=
        if jsTruthyStr (config.errors.bind QBOConfigErrors.exportCompanyCard) then
          some BrickRoadIndicator.error
        else none
      title := config.exportCompanyCard },
    { description := translate "workspace.qbo.exportExpensifyCard"
      brickRoadIndicator := none
      title := some (translate "workspace.qbo.creditCard") } ]

/-- C7: in the QuickBooks export page's menu, each of the five
configurable rows shows the error brick-road indicator exactly when the
matching `errors` field is set (truthy); the preferred-exporter row's
title is the configured exporter with the policy owner as fallback when
none is configured; and the export-date and export-expenses rows have no
title when the matching config value is unset. -/
theorem quickbooksExportMenuItems_spec (translate : String → String)
    (policyOwner : String) (config : QuickbooksOnlineConfig) :
    ∃ i0 i1 i2 i3 i4 i5,
      quickbooksExportMenuItems translate policyOwner config = [i0, i1, i2, i3, i4, i5]
      ∧ (i0.brickRoadIndicator = some BrickRoadIndicator.error ↔
          jsTruthyStr (config.errors.bind QBOConfigErrors.exporter) = true)
      ∧ (i1.brickRoadIndicator = some BrickRoadIndicator.error ↔
          jsTruthyStr (config.errors.bind QBOConfigErrors.exportDate) = true)
      ∧ (i2.brickRoadIndicator = some BrickRoadIndicator.error ↔
          jsTruthyStr (config.errors.bind QBOConfigErrors.exportExpenses) = true)
      ∧ (i3.brickRoadIndicator = some BrickRoadIndicator.error ↔
          jsTruthyStr (config.errors.bind QBOConfigErrors.exportInvoice) = true)
      ∧ (i4.brickRoadIndicator = some BrickRoadIndicator.error ↔
          jsTruthyStr (config.errors.bind QBOConfigErrors.exportCompanyCard) = true)
      ∧ i5.brickRoadIndicator = none
      ∧ i0.title = some (config.exporter.getD policyOwner)
      ∧ (config.exporter = none → i0.title = some policyOwner)
      ∧ (config.exportDate = none → i1.title = none)
      ∧ (config.exportEntity = none → i2.title = none) := by
  refine ⟨_, _, _, _, _, _, rfl, ?_, ?_, ?_, ?_, ?_, rfl, rfl, ?_, ?_, ?_⟩
  · cases h : jsTruthyStr (config.errors.bind QBOConfigErrors.exporter) <;> simp [h]
  · cases h : jsTruthyStr (config.errors.bind QBOConfigErrors.exportDate) <;> simp [h]
  · cases h : jsTruthyStr (config.errors.bind QBOConfigErrors.exportExpenses) <;> simp [h]
  · cases h : jsTruthyStr (config.errors.bind QBOConfigErrors.exportInvoice) <;> simp [h]
  · cases h : jsTruthyStr (config.errors.bind QBOConfigErrors.exportCompanyCard) <;> simp [h]
  · intro h; simp [h]
  · intro h; simp [h, jsTruthyStr]
  · intro h; simp [h, jsTruthyStr]

/-- Witness for C7 at a concrete config with nothing configured: the
exporter row falls back to the owner and the date/expenses rows have no
title. -/
theorem quickbooksExportMenuItems_spec_witness :
    ∃ i0 i1 i2 i3 i4 i5,
      quickbooksExportMenuItems (fun k => k) "owner"
          { exporter := none, exportDate := none, exportEntity := none,
            exportInvoice := none, exportCompanyCard := none, errors := none }
        = [i0, i1, i2, i3, i4, i5]
      ∧ i0.title = some "owner" ∧ i1.title = none ∧ i2.title = none := by
  obtain ⟨i0, i1, i2, i3, i4, i5, heq, -, -, -, -, -, -, -, hOwner, hDate, hEntity⟩ :=
    quickbooksExportMenuItems_spec (fun k => k) "owner"
      { exporter := none, exportDate := none, exportEntity := none,
        exportInvoice := none, exportCompanyCard := none, errors := none }
  exact ⟨i0, i1, i2, i3, i4, i5, heq, hOwner rfl, hDate rfl, hEntity rfl⟩

/-- The `Data` argument of `validateAndDisplayFileToUpload`: a `File`, an
`ImagePickerResponse`, or a `DataTransferItem`-like object (the only kind
with `webkitGetAsEntry`/`getAsFile`), whose entry may be a directory and
whose `getAsFile()` may return `null`. -/
inductive UploadData
  | fileObject (f : FileData)
  | imagePickerObject (r : ImagePickerResponse)
  | dataTransferItem (isDirectory : Bool) (asFile : Option FileData)
deriving DecidableEq

/-- `isDirectoryCheck` (part_000 lines 297-305): when the data's entry is
a directory, set the invalid-attachment state with the folder-not-allowed
reason and return `false`; otherwise return `true`. -/
def isDirectoryCheck (d : UploadData) (s : AttachmentModalState) :
    AttachmentModalState × Bool :=
  match d with
  | UploadData.dataTransferItem true _ =>
      ({ s with isAttachmentInvalid := true,
                attachmentInvalidReasonTitle := "attachmentPicker.attachmentError",
                attachmentInvalidReason := some "attachmentPicker.folderNotAllowedMessage" },
       false)
  | _ => (s, true)

/-- `isValidFile` (part_000 lines 275-291): reject a `File` whose size
(`?? 0`) exceeds `CONST.API_ATTACHMENT_VALIDATIONS.MAX_SIZE` or is below
`...MIN_SIZE`, setting the matching invalid-attachment reason; the size
bounds are parameters since `CONST` is outside the snippet. -/
def isValidFile (maxSize minSize : Nat) (f : FileData) (s : AttachmentModalState) :
    AttachmentModalState × Bool :=
  if f.size.getD 0 > maxSize then
    ({ s with isAttachmentInvalid := true,
              attachmentInvalidReasonTitle := "attachmentPicker.attachmentTooLarge",
              attachmentInvalidReason := some "attachmentPicker.sizeExceeded" },
     false)
  else if f.size.getD 0 < minSize then
    ({ s with isAttachmentInvalid := true,
              attachmentInvalidReasonTitle := "attachmentPicker.attachmentTooSmall",
              attachmentInvalidReason := some "attachmentPicker.sizeNotMet" },
     false)
  else
    (s, true)

/-- `validateAndDisplayFileToUpload` (part_000 lines 310-353), the
`displayFileInModal` callback handed to children: directory check, then
`getAsFile()` extraction, then `isValidFile` for `File` instances, then
file-name cleaning (`FileUtils.cleanFileName`, a `new File` copy when the
name differs), object-URL creation and modal opening.
`cleanFileName` and `createObjectURL` stand for the library helpers. -/
def validateAndDisplayFileToUpload (cleanFileName : String → String)
    (createObjectURL : FileData → String) (isPDF : String → Bool)
    (unknownFilename : String) (maxSize minSize : Nat)
    (d : UploadData) (s : AttachmentModalState) : AttachmentModalState :=
  match isDirectoryCheck d s with
  | (s1, false) => s1
  | (s1, true) =>
    let fileObject : Option (FileData ⊕ ImagePickerResponse) :=
      match d with
      | UploadData.fileObject f => some (Sum.inl f)
      | UploadData.imagePickerObject r => some (Sum.inr r)
      | UploadData.dataTransferItem _ asFile => asFile.map Sum.inl
    match fileObject with
    | none => s1
    | some (Sum.inl f) =>
      match isValidFile maxSize minSize f s1 with
      | (s2, false) => s2
      | (s2, true) =>
        let cleanName := cleanFileName f.name
        let updatedFile := if f.name = cleanName then f else { f with name := cleanName }
        let inputSource := createObjectURL updatedFile
        let inputModalType := getModalType isPDF unknownFilename inputSource (some updatedFile.name)
        { s2 with isModalOpen := true, sourceState := inputSource,
                  file := some (StoredFile.fileObject updatedFile),
                  modalType := inputModalType }
    | some (Sum.inr r) =>
      let inputModalType := getModalType isPDF unknownFilename r.uri (some r.name)
      { s1 with isModalOpen := true, sourceState := r.uri,
                file := some (StoredFile.imageObject r),
                modalType := inputModalType }

/-- C10: `displayFileInModal` rejects directories with the
folder-not-allowed reason, over-sized files with the too-large reason and
under-sized files with the too-small reason, in each case setting the
invalid-attachment state without opening the preview modal; files whose
size equals either bound are accepted; and every accepted `File` is
displayed under its cleaned name (size and type kept). -/
theorem validateAndDisplayFileToUpload_spec (cleanFileName : String → String)
    (createObjectURL : FileData → String) (isPDF : String → Bool)
    (unknownFilename : String) (maxSize minSize : Nat)
    (s : AttachmentModalState) (hsize : minSize ≤ maxSize) :
    (∀ asFile, validateAndDisplayFileToUpload cleanFileName createObjectURL isPDF
        unknownFilename maxSize minSize (UploadData.dataTransferItem true asFile) s =
      { s with isAttachmentInvalid := true,
               attachmentInvalidReasonTitle := "attachmentPicker.attachmentError",
               attachmentInvalidReason := some "attachmentPicker.folderNotAllowedMessage" })
    ∧ (∀ f : FileData, maxSize < f.size.getD 0 →
      validateAndDisplayFileToUpload cleanFileName createObjectURL isPDF
          unknownFilename maxSize minSize (UploadData.fileObject f) s =
        { s with isAttachmentInvalid := true,
                 attachmentInvalidReasonTitle := "attachmentPicker.attachmentTooLarge",
                 attachmentInvalidReason := some "attachmentPicker.sizeExceeded" })
    ∧ (∀ f : FileData, f.size.getD 0 < minSize →
      validateAndDisplayFileToUpload cleanFileName createObjectURL isPDF
          unknownFilename maxSize minSize (UploadData.fileObject f) s =
        { s with isAttachmentInvalid := true,
                 attachmentInvalidReasonTitle := "attachmentPicker.attachmentTooSmall",
                 attachmentInvalidReason := some "attachmentPicker.sizeNotMet" })
    ∧ (∀ f : FileData, f.size.getD 0 = maxSize ∨ f.size.getD 0 = minSize →
      (validateAndDisplayFileToUpload cleanFileName createObjectURL isPDF
          unknownFilename maxSize minSize (UploadData.fileObject f) s).isModalOpen = true)
    ∧ (∀ f : FileData, minSize ≤ f.size.getD 0 → f.size.getD 0 ≤ maxSize →
      (validateAndDisplayFileToUpload cleanFileName createObjectURL isPDF
          unknownFilename maxSize minSize (UploadData.fileObject f) s).isModalOpen = true
      ∧ (validateAndDisplayFileToUpload cleanFileName createObjectURL isPDF
          unknownFilename maxSize minSize (UploadData.fileObject f) s).file =
        some (StoredFile.fileObject { f with name := cleanFileName f.name })
      ∧ (validateAndDisplayFileToUpload cleanFileName createObjectURL isPDF
          unknownFilename maxSize minSize (UploadData.fileObject f) s).sourceState =
        createObjectURL { f with name := cleanFileName f.name }) := by
  have haccept : ∀ f : FileData, minSize ≤ f.size.getD 0 → f.size.getD 0 ≤ maxSize →
      validateAndDisplayFileToUpload cleanFileName createObjectURL isPDF
          unknownFilename maxSize minSize (UploadData.fileObject f) s =
        { s with isModalOpen := true,
                 sourceState := createObjectURL { f with name := cleanFileName f.name },
                 file := some (StoredFile.fileObject { f with name := cleanFileName f.name }),
                 modalType := getModalType isPDF unknownFilename
                     (createObjectURL { f with name := cleanFileName f.name })
                     (some (cleanFileName f.name)) } := by
    intro f hlo hhi
    obtain ⟨n, sz, ty⟩ := f
    have h1 : ¬(sz.getD 0 > maxSize) := by simpa using hhi
    have h2 : ¬(sz.getD 0 < minSize) := by simpa using hlo
    by_cases hn : n = cleanFileName n
    · have hnn : (n = cleanFileName n) = True := eq_true hn
      simp [validateAndDisplayFileToUpload, isDirectoryCheck, isValidFile, h1, h2, hnn]
      rw [← hn]
      exact ⟨rfl, rfl⟩
    · simp [validateAndDisplayFileToUpload, isDirectoryCheck, isValidFile, h1, h2, hn]
  refine ⟨?_, ?_, ?_, ?_, ?_⟩
  · intro asFile
    cases asFile <;> rfl
  · intro f hbig
    simp [validateAndDisplayFileToUpload, isDirectoryCheck, isValidFile, hbig]
  · intro f hsmall
    have h1 : ¬(f.size.getD 0 > maxSize) := by omega
    simp [validateAndDisplayFileToUpload, isDirectoryCheck, isValidFile, h1, hsmall]
  · intro f hbound
    have hlo : minSize ≤ f.size.getD 0 := by omega
    have hhi : f.size.getD 0 ≤ maxSize := by omega
    rw [haccept f hlo hhi]
  · intro f hlo hhi
    rw [haccept f hlo hhi]
    exact ⟨rfl, rfl, rfl⟩

/-- Witness for C10: with bounds 2 and 10, a directory is rejected, an
11-byte file is too large, a 1-byte file is too small, and a 10-byte
file named `dirty` is accepted and displayed under its cleaned name. -/
theorem validateAndDisplayFileToUpload_spec_witness :
    (2 : Nat) ≤ 10
    ∧ validateAndDisplayFileToUpload (fun _ => "clean") (fun f => "blob:" ++ f.name)
        (fun _ => false) "unknown" 10 2 (UploadData.dataTransferItem true none) sampleModalState =
      { sampleModalState with
          isAttachmentInvalid := true,
          attachmentInvalidReasonTitle := "attachmentPicker.attachmentError",
          attachmentInvalidReason := some "attachmentPicker.folderNotAllowedMessage" }
    ∧ validateAndDisplayFileToUpload (fun _ => "clean") (fun f => "blob:" ++ f.name)
        (fun _ => false) "unknown" 10 2
        (UploadData.fileObject { name := "big", size := some 11, type := "img" })
        sampleModalState =
      { sampleModalState with
          isAttachmentInvalid := true,
          attachmentInvalidReasonTitle := "attachmentPicker.attachmentTooLarge",
          attachmentInvalidReason := some "attachmentPicker.sizeExceeded" }
    ∧ validateAndDisplayFileToUpload (fun _ => "clean") (fun f => "blob:" ++ f.name)
        (fun _ => false) "unknown" 10 2
        (UploadData.fileObject { name := "tiny", size := some 1, type := "img" })
        sampleModalState =
      { sampleModalState with
          isAttachmentInvalid := true,
          attachmentInvalidReasonTitle := "attachmentPicker.attachmentTooSmall",
          attachmentInvalidReason := some "attachmentPicker.sizeNotMet" }
    ∧ (validateAndDisplayFileToUpload (fun _ => "clean") (fun f => "blob:" ++ f.name)
        (fun _ => false) "unknown" 10 2
        (UploadData.fileObject { name := "dirty", size := some 10, type := "img" })
        sampleModalState).isModalOpen = true
    ∧ (validateAndDisplayFileToUpload (fun _ => "clean") (fun f => "blob:" ++ f.name)
        (fun _ => false) "unknown" 10 2
        (UploadData.fileObject { name := "dirty", size := some 10, type := "img" })
        sampleModalState).file =
      some (StoredFile.fileObject { name := "clean", size := some 10, type := "img" }) :=
  ⟨by decide,
    (validateAndDisplayFileToUpload_spec (fun _ => "clean") (fun f => "blob:" ++ f.name)
      (fun _ => false) "unknown" 10 2 sampleModalState (by decide)).1 none,
    (validateAndDisplayFileToUpload_spec (fun _ => "clean") (fun f => "blob:" ++ f.name)
      (fun _ => false) "unknown" 10 2 sampleModalState (by decide)).2.1
      { name := "big", size := some 11, type := "img" } (by decide),
    (validateAndDisplayFileToUpload_spec (fun _ => "clean") (fun f => "blob:" ++ f.name)
      (fun _ => false) "unknown" 10 2 sampleModalState (by decide)).2.2.1
      { name := "tiny", size := some 1, type := "img" } (by decide),
    (validateAndDisplayFileToUpload_spec (fun _ => "clean") (fun f => "blob:" ++ f.name)
      (fun _ => false) "unknown" 10 2 sampleModalState (by decide)).2.2.2.1
      { name := "dirty", size := some 10, type := "img" } (Or.inl (by decide)),
    ((validateAndDisplayFileToUpload_spec (fun _ => "clean") (fun f => "blob:" ++ f.name)
      (fun _ => false) "unknown" 10 2 sampleModalState (by decide)).2.2.2.2
      { name := "dirty", size := some 10, type := "img" } (by decide) (by decide)).2.1⟩

/-- A registration event sent to `DNDUtils`: the consumer's effect calls
`registerOnDropCallback(dropZoneID, onDropCallback)` and its cleanup
calls `deregisterOnDropCallback(dropZoneID, onDropCallback)`.  Callback
closures are identified by the number of the effect run that created
them. -/
inductive DnDEvent
  | registerCallback (zoneID : String) (cbId : Nat)
  | deregisterCallback (zoneID : String) (cbId : Nat)
deriving DecidableEq

/-- The props of `DragAndDropConsumer` that drive registration:
`dropZoneID`, and the `onDrop` prop (`none` when not provided, otherwise
an identifier of the particular callback value). -/
structure ConsumerProps where
  dropZoneID : String
  onDrop : Option Nat
deriving DecidableEq

/-- Simulation state of one mounted `DragAndDropConsumer`
(components/DragAndDrop/Consumer/index.js lines 10-23):
`refCurrent` is `onDropRef.current` (assigned on every render, line 11);
`registered` is the zone and effect-run id of the currently registered
`onDropCallback` closure; `nextId` numbers effect runs; `events` is the
trace of register/deregister calls made so far. -/
structure ConsumerSim where
  refCurrent : Option Nat
  registered : Option (String × Nat)
  nextId : Nat
  events : List DnDEvent
deriving DecidableEq

/-- State before the component ever rendered. -/
def initConsumerSim : ConsumerSim :=
  { refCurrent := none, registered := none, nextId := 0, events := [] }

/-- One render of the consumer under React's `useEffect` semantics with
dependency array `[dropZoneID]` (line 23): the render assigns
`onDropRef.current = onDrop`; the effect runs after the first render and
after any render whose `dropZoneID` differs from the one at the last
effect run, in which case the previous cleanup deregisters the old
callback before the new effect registers a fresh one. -/
def renderStep (s : ConsumerSim) (p : ConsumerProps) : ConsumerSim :=
  let s1 := { s with refCurrent := p.onDrop }
  match s1.registered with
  | none =>
      { s1 with registered := some (p.dropZoneID, s1.nextId),
                nextId := s1.nextId + 1,
                events := s1.events ++ [DnDEvent.registerCallback p.dropZoneID s1.nextId] }
  | some (z, i) =>
      if z = p.dropZoneID then
        s1
      else
        { s1 with registered := some (p.dropZoneID, s1.nextId),
                  nextId := s1.nextId + 1,
                  events := s1.events ++ [DnDEvent.deregisterCallback z i,
                    DnDEvent.registerCallback p.dropZoneID s1.nextId] }

/-- Unmounting runs the last effect's cleanup (line 22), deregistering
the currently registered callback. -/
def unmountStep (s : ConsumerSim) : ConsumerSim :=
  match s.registered with
  | none => s
  | some (z, i) =>
      { s with registered := none,
               events := s.events ++ [DnDEvent.deregisterCallback z i] }

/-- A full mounted lifetime: the mount render with props `p0` followed by
re-renders with the props in `rest`, in order. -/
def mountAndRender (p0 : ConsumerProps) (rest : List ConsumerProps) : ConsumerSim :=
  rest.foldl renderStep (renderStep initConsumerSim p0)

/-- Invoking the registered `onDropCallback` closure (lines 15-20): it
reads `onDropRef.current`, returns without doing anything when it is not
set, and calls it otherwise.  The result is the list of `onDrop` props
invoked. -/
def invokeOnDropCallback (refCurrent : Option Nat) : List Nat :=
  match refCurrent with
  | none => []
  | some a => [a]

/-- Effect of one registration event on a registry of callbacks
(`registerOnDropCallback` adds the callback for the zone,
`deregisterOnDropCallback` removes that exact callback). -/
def applyDnDEvent (registry : List (String × Nat)) : DnDEvent → List (String × Nat)
  | DnDEvent.registerCallback z i => (z, i) :: registry
  | DnDEvent.deregisterCallback z i => registry.erase (z, i)

/-- Replay a trace of registration events over a registry. -/
def applyDnDEvents (registry : List (String × Nat)) (events : List DnDEvent) :
    List (String × Nat) :=
  events.foldl applyDnDEvent registry

/-- The registration-relevant part of the simulation state: everything
except `onDropRef.current`. -/
def simCore (s : ConsumerSim) : Option (String × Nat) × Nat × List DnDEvent :=
  (s.registered, s.nextId, s.events)

/-- A render always stores the incoming `onDrop` prop in the ref. -/
theorem renderStep_refCurrent (s : ConsumerSim) (p : ConsumerProps) :
    (renderStep s p).refCurrent = p.onDrop := by
  unfold renderStep
  cases hr : s.registered with
  | none => rfl
  | some zi =>
    obtain ⟨z, i⟩ := zi
    simp only [hr]
    split <;> rfl

/-- After any sequence of renders the ref holds the last render's
`onDrop`. -/
theorem foldl_renderStep_refCurrent (rest : List ConsumerProps) :
    ∀ s : ConsumerSim, (rest.foldl renderStep s).refCurrent =
      rest.foldl (fun c q => q.onDrop) s.refCurrent := by
  induction rest with
  | nil => intro s; rfl
  | cons p t ih =>
    intro s
    simp only [List.foldl_cons]
    rw [ih (renderStep s p), renderStep_refCurrent]

/-- Invariant carried across renders: exactly one callback of this
consumer is registered, for the zone of the last effect run, and
replaying the trace over any registry adds exactly that callback. -/
def SimInv (r : List (String × Nat)) (z : String) (s : ConsumerSim) : Prop :=
  ∃ i, s.registered = some (z, i) ∧ applyDnDEvents r s.events = (z, i) :: r

/-- One render preserves the invariant, moving the zone to the render's
`dropZoneID`. -/
theorem renderStep_SimInv (r : List (String × Nat)) (z : String) (s : ConsumerSim)
    (p : ConsumerProps) (h : SimInv r z s) : SimInv r p.dropZoneID (renderStep s p) := by
  obtain ⟨i, hreg, happ⟩ := h
  by_cases hz : z = p.dropZoneID
  · subst hz
    refine ⟨i, ?_, ?_⟩ <;> simp [renderStep, hreg, happ]
  · have happ' : List.foldl applyDnDEvent r s.events = (z, i) :: r := happ
    refine ⟨s.nextId, ?_, ?_⟩ <;>
      simp [renderStep, hreg, hz, applyDnDEvents, List.foldl_append, applyDnDEvent,
        happ', List.erase_cons_head]

/-- The invariant survives any sequence of re-renders, ending at the last
render's zone. -/
theorem foldl_renderStep_SimInv (rest : List ConsumerProps) :
    ∀ (s : ConsumerSim) (z : String) (r : List (String × Nat)), SimInv r z s →
      SimInv r (rest.foldl (fun c q => q.dropZoneID) z) (rest.foldl renderStep s) := by
  induction rest with
  | nil => intro s z r h; exact h
  | cons p t ih =>
    intro s z r h
    simp only [List.foldl_cons]
    exact ih (renderStep s p) p.dropZoneID r (renderStep_SimInv r z s p h)

/-- The mount render establishes the invariant. -/
theorem mount_SimInv (p0 : ConsumerProps) (r : List (String × Nat)) :
    SimInv r p0.dropZoneID (renderStep initConsumerSim p0) :=
  ⟨0, rfl, rfl⟩

/-- Unmounting removes the registered callback: the trace replays to the
original registry and nothing stays registered. -/
theorem unmountStep_SimInv (r : List (String × Nat)) (z : String) (s : ConsumerSim)
    (h : SimInv r z s) :
    applyDnDEvents r (unmountStep s).events = r ∧ (unmountStep s).registered = none := by
  obtain ⟨i, hreg, happ⟩ := h
  have happ' : List.foldl applyDnDEvent r s.events = (z, i) :: r := happ
  constructor <;>
    simp [unmountStep, hreg, applyDnDEvents, List.foldl_append, applyDnDEvent, happ',
      List.erase_cons_head]

/-- A render's effect on `registered`/`nextId`/`events` depends only on
the previous values of those and the render's `dropZoneID`, not on
`onDrop`. -/
theorem renderStep_simCore (s t : ConsumerSim) (p q : ConsumerProps)
    (hc : simCore s = simCore t) (hz : p.dropZoneID = q.dropZoneID) :
    simCore (renderStep s p) = simCore (renderStep t q) := by
  have hreg : s.registered = t.registered := congrArg (fun x => x.1) hc
  have hnext : s.nextId = t.nextId := congrArg (fun x => x.2.1) hc
  have hev : s.events = t.events := congrArg (fun x => x.2.2) hc
  cases hr : t.registered with
  | none =>
    have hr' : s.registered = none := hreg.trans hr
    simp [simCore, renderStep, hr, hr', hnext, hev, hz]
  | some zi =>
    obtain ⟨z, i⟩ := zi
    have hr' : s.registered = some (z, i) := hreg.trans hr
    by_cases hzz : z = q.dropZoneID <;>
      simp [simCore, renderStep, hr, hr', hnext, hev, hz, hzz]

/-- Re-render sequences with the same `dropZoneID`s produce the same
`registered`/`nextId`/`events`, whatever the `onDrop` props do. -/
theorem foldl_renderStep_simCore (rest : List ConsumerProps) :
    ∀ (rest' : List ConsumerProps) (s t : ConsumerSim), simCore s = simCore t →
      rest.map ConsumerProps.dropZoneID = rest'.map ConsumerProps.dropZoneID →
      simCore (rest.foldl renderStep s) = simCore (rest'.foldl renderStep t) := by
  induction rest with
  | nil =>
    intro rest' s t hc hmap
    cases rest' with
    | nil => exact hc
    | cons q t' => simp at hmap
  | cons p tl ih =>
    intro rest' s t hc hmap
    cases rest' with
    | nil => simp at hmap
    | cons q tl' =>
      obtain ⟨hz, htl⟩ : p.dropZoneID = q.dropZoneID ∧
          tl.map ConsumerProps.dropZoneID = tl'.map ConsumerProps.dropZoneID := by
        simpa using hmap
      simp only [List.foldl_cons]
      exact ih tl' (renderStep s p) (renderStep t q) (renderStep_simCore s t p q hc hz) htl

/-- When no re-render changes the zone, the effect never re-runs:
`registered`, `nextId` and the trace stay as the mount left them. -/
theorem foldl_renderStep_same_zone (rest : List ConsumerProps) :
    ∀ (s : ConsumerSim) (z : String) (i : Nat), s.registered = some (z, i) →
      (∀ p ∈ rest, p.dropZoneID = z) → simCore (rest.foldl renderStep s) = simCore s := by
  induction rest with
  | nil => intro s z i hreg hall; rfl
  | cons p t ih =>
    intro s z i hreg hall
    have hz : p.dropZoneID = z := hall p (List.mem_cons_self p t)
    have hstep : renderStep s p = { s with refCurrent := p.onDrop } := by
      simp [renderStep, hreg, hz]
    simp only [List.foldl_cons, hstep]
    exact ih { s with refCurrent := p.onDrop } z i hreg
      (fun q hq => hall q (List.mem_cons_of_mem p hq))

/-- C8: over any mounted lifetime of `DragAndDropConsumer` (mount props
`p0`, then re-renders `rest`): exactly one callback is registered, for
the latest `dropZoneID`; unmounting deregisters it, leaving any registry
exactly as before the mount; the ref always holds the last render's
`onDrop`, so invoking the registered callback calls the latest `onDrop`
prop and does nothing when none is provided; the event trace is a
function of the `dropZoneID` sequence alone (changing only `onDrop`
re-registers nothing); and when the zone never changes the whole trace
is the single mount registration. -/
theorem dragAndDropConsumer_registration_spec (p0 : ConsumerProps)
    (rest : List ConsumerProps) (r : List (String × Nat)) :
    (∃ i, (mountAndRender p0 rest).registered =
        some (rest.foldl (fun c q => q.dropZoneID) p0.dropZoneID, i)
      ∧ applyDnDEvents r (mountAndRender p0 rest).events =
        (rest.foldl (fun c q => q.dropZoneID) p0.dropZoneID, i) :: r)
    ∧ applyDnDEvents r (unmountStep (mountAndRender p0 rest)).events = r
    ∧ (unmountStep (mountAndRender p0 rest)).registered = none
    ∧ (mountAndRender p0 rest).refCurrent = rest.foldl (fun c q => q.onDrop) p0.onDrop
    ∧ invokeOnDropCallback (mountAndRender p0 rest).refCurrent =
      Option.elim (rest.foldl (fun c q => q.onDrop) p0.onDrop) [] (fun a => [a])
    ∧ (∀ (q0 : ConsumerProps) (rest' : List ConsumerProps),
        q0.dropZoneID = p0.dropZoneID →
        rest'.map ConsumerProps.dropZoneID = rest.map ConsumerProps.dropZoneID →
        (mountAndRender q0 rest').events = (mountAndRender p0 rest).events)
    ∧ ((∀ p ∈ rest, p.dropZoneID = p0.dropZoneID) →
        (mountAndRender p0 rest).events = [DnDEvent.registerCallback p0.dropZoneID 0]) := by
  have hinv : SimInv r (rest.foldl (fun c q => q.dropZoneID) p0.dropZoneID)
      (mountAndRender p0 rest) :=
    foldl_renderStep_SimInv rest (renderStep initConsumerSim p0) p0.dropZoneID r
      (mount_SimInv p0 r)
  have hunmount := unmountStep_SimInv r _ _ hinv
  have href : (mountAndRender p0 rest).refCurrent =
      rest.foldl (fun c q => q.onDrop) p0.onDrop := by
    unfold mountAndRender
    rw [foldl_renderStep_refCurrent, renderStep_refCurrent]
  refine ⟨hinv, hunmount.1, hunmount.2, href, ?_, ?_, ?_⟩
  · rw [href]
    cases rest.foldl (fun c q => q.onDrop) p0.onDrop <;> rfl
  · intro q0 rest' hz hmap
    have hbase : simCore (renderStep initConsumerSim q0) =
        simCore (renderStep initConsumerSim p0) :=
      renderStep_simCore initConsumerSim initConsumerSim q0 p0 rfl hz
    have hcore := foldl_renderStep_simCore rest' rest
      (renderStep initConsumerSim q0) (renderStep initConsumerSim p0) hbase hmap
    exact congrArg (fun x => x.2.2) hcore
  · intro hall
    have hmount : (renderStep initConsumerSim p0).registered = some (p0.dropZoneID, 0) := rfl
    have hsame := foldl_renderStep_same_zone rest (renderStep initConsumerSim p0)
      p0.dropZoneID 0 hmount hall
    exact congrArg (fun x => x.2.2) hsame

/-- Witness for C8: a concrete lifetime over zones `a, a, b`; a
same-zone lifetime whose trace is independent of the `onDrop` props and
is the single mount registration. -/
theorem dragAndDropConsumer_registration_spec_witness :
    applyDnDEvents [] (unmountStep (mountAndRender ⟨"a", some 1⟩
        [⟨"a", some 2⟩, ⟨"b", none⟩])).events = []
    ∧ (mountAndRender ⟨"a", some 9⟩ [⟨"a", none⟩]).events =
        (mountAndRender ⟨"a", some 1⟩ [⟨"a", some 2⟩]).events
    ∧ (mountAndRender ⟨"a", some 1⟩ [⟨"a", some 2⟩]).events =
        [DnDEvent.registerCallback "a" 0] :=
  ⟨(dragAndDropConsumer_registration_spec ⟨"a", some 1⟩
      [⟨"a", some 2⟩, ⟨"b", none⟩] []).2.1,
    (dragAndDropConsumer_registration_spec ⟨"a", some 1⟩ [⟨"a", some 2⟩] []).2.2.2.2.2.1
      ⟨"a", some 9⟩ [⟨"a", none⟩] rfl rfl,
    (dragAndDropConsumer_registration_spec ⟨"a", some 1⟩ [⟨"a", some 2⟩] []).2.2.2.2.2.2
      (by decide)⟩
